import Mathlib

/-!
Verification model of the runtime session lifecycle manager of this
repository (console and notebook sessions started, restarted and shut down
per target key, serialized by a per-key request queue).

The lifecycle core itself (`RuntimeSessionService` / `NotebookSessionService`)
is exercised only through its test suites in the sources available here, so
the operational definitions below are modelled from the specification
(sections 3 to 7): the data model, the Session Directory, and the
`startNewRuntimeSession` / `restartSession` / `shutdownNotebookSession`
operations, with the per-target-key request queue reduced to its
serialization semantics (single-threaded cooperative scheduling, one
lifecycle operation at a time per key). Where the repository's passing test
suites document behavior that diverges from the specification's words, the
definitions follow the tests: a session is `Starting` (not `Ready`) when the
start promise resolves, a console start assigns the foreground session
without firing `onDidChangeForegroundSession`, and an operation queued
behind a failing operation rejects with the failing operation's error
instead of running.
-/

namespace RuntimeSessionModel

/-- Modelled from the spec: `RuntimeMetadata` is the immutable descriptor of a
discovered runtime — unique runtime id, language id, and display names. -/
structure RuntimeMetadata where
  runtimeId : String
  languageId : String
  languageName : String
  runtimeName : String
  deriving DecidableEq, Repr

/-- Modelled from the spec: session mode, `Console` or `Notebook`. -/
inductive SessionMode where
  | console
  | notebook
  deriving DecidableEq, Repr

/-- Modelled from the spec: the target key is derived from the language id for
console sessions and from the notebook document URI for notebook sessions. -/
inductive TargetKey where
  | console (languageId : String)
  | notebook (uri : String)
  deriving DecidableEq, Repr

/-- Modelled from the spec: the lifecycle tag of a session,
`Uninitialized → Starting → { Ready | Offline | ... } → Exiting → Exited`,
plus `Restarting`. -/
inductive RuntimeState where
  | uninitialized
  | starting
  | ready
  | offline
  | restarting
  | exiting
  | exited
  deriving DecidableEq, Repr

/-- Modelled from the spec: a directory entry counts as active-or-starting
while it is starting, running or restarting; a session registered under
`Uninitialized` (before its `start()` is invoked) is already visible as
"starting" to concurrent queries; `Exiting`/`Exited` entries are not. -/
def RuntimeState.activeOrStarting : RuntimeState → Bool
  | .exiting => false
  | .exited => false
  | _ => true

/-- Modelled from the spec: `SessionMetadata`, created at session-start time —
generated unique session id, mode, name, free-text start reason, and the
notebook URI (present iff the mode is `Notebook`). -/
structure SessionMetadata where
  sessionId : Nat
  sessionMode : SessionMode
  sessionName : String
  startReason : String
  notebookUri : Option String
  deriving DecidableEq, Repr

/-- Modelled from the spec: a session instance as the Session Directory owns
it — its metadata, the metadata of the runtime it runs, and its
self-reported lifecycle state. -/
structure Session where
  metadata : SessionMetadata
  runtimeMetadata : RuntimeMetadata
  state : RuntimeState
  deriving DecidableEq, Repr

/-- Modelled from the spec: the target key a session occupies — its language
id when it is a console session, its notebook URI when it is a notebook
session. -/
def Session.targetKey (s : Session) : TargetKey :=
  match s.metadata.sessionMode with
  | .console => .console s.runtimeMetadata.languageId
  | .notebook => .notebook (s.metadata.notebookUri.getD "")

/-- Modelled from the spec: the Session Directory and foreground pointer —
the sole piece of mutable shared state. `activeSessions` enumerates every
registered session (exited sessions stay enumerable); `nextSessionId`
guarantees session ids are never reused. -/
structure ServiceState where
  activeSessions : List Session
  foregroundSession : Option Nat
  nextSessionId : Nat
  deriving DecidableEq, Repr

/-- The empty service state. -/
def ServiceState.initial : ServiceState :=
  { activeSessions := [], foregroundSession := none, nextSessionId := 0 }

/-- Modelled from the spec: `getSession(sessionId)` — lookup in the Session
Directory by session id. -/
def getSession (st : ServiceState) (sessionId : Nat) : Option Session :=
  st.activeSessions.find? (fun s => decide (s.metadata.sessionId = sessionId))

/-- Modelled from the spec: the Directory's check for an existing
active-or-starting entry at a target key. -/
def findActiveAtKey (st : ServiceState) (key : TargetKey) : Option Session :=
  st.activeSessions.find?
    (fun s => decide (s.targetKey = key ∧ s.state.activeOrStarting = true))

/-- Modelled from the spec: `getConsoleSessionForLanguage(languageId)` — the
console-for-language secondary index. -/
def getConsoleSessionForLanguage (st : ServiceState) (languageId : String) :
    Option Session :=
  findActiveAtKey st (.console languageId)

/-- Modelled from the spec: `getNotebookSessionForNotebookUri(uri)` — the
notebook-for-uri secondary index. -/
def getNotebookSessionForNotebookUri (st : ServiceState) (uri : String) :
    Option Session :=
  findActiveAtKey st (.notebook uri)

/-- Modelled from the spec: `hasStartingOrRunningConsole(languageId)`. -/
def hasStartingOrRunningConsole (st : ServiceState) (languageId : String) : Bool :=
  (getConsoleSessionForLanguage st languageId).isSome

/-- Modelled from the spec: whether a foreground session is currently set for
the given language. -/
def foregroundSetForLanguage (st : ServiceState) (languageId : String) : Bool :=
  match st.foregroundSession with
  | none => false
  | some fid =>
    match getSession st fid with
    | some s => decide (s.runtimeMetadata.languageId = languageId)
    | none => false

/-- Modelled from the spec: the error taxonomy of the lifecycle core.
`conflictingRuntime` carries both runtime names and the conflicting start
reason, as the spec requires them in the message. -/
inductive SessionError where
  | unknownRuntime (runtimeId : String)
  | unknownSession (sessionId : Nat)
  | missingNotebookUri
  | conflictingRuntime (requestedName existingName conflictingStartReason : String)
  | noManagerFound
  | restartTimeout
  | shutdownTimeout
  | providerFailure (message : String)
  deriving DecidableEq, Repr

/-- Modelled from the spec: the lifecycle events the core emits. -/
inductive Event where
  | willStartSession (sessionId : Nat) (isNew : Bool)
  | didStartRuntime (sessionId : Nat)
  | didFailStartRuntime (sessionId : Nat)
  | didChangeForegroundSession (sessionId : Option Nat)
  deriving DecidableEq, Repr

/-- Whether an event is an `onWillStartSession` emission. -/
def Event.isWillStart : Event → Bool
  | .willStartSession _ _ => true
  | _ => false

/-- Whether an event is an `onDidStartRuntime` emission. -/
def Event.isDidStart : Event → Bool
  | .didStartRuntime _ => true
  | _ => false

/-- Modelled from the spec: the primitives the core invokes on the external
collaborator (the session manager / session object), recorded as a trace so
that invocation counts and order are observable. -/
inductive Prim where
  | createSession (runtimeId : String)
  | sessionStart (sessionId : Nat)
  | sessionRestart (sessionId : Nat)
  | sessionShutdown (sessionId : Nat)
  deriving DecidableEq, Repr

/-- Modelled from the spec: arguments of
`startNewRuntimeSession(runtimeId, sessionName, mode, notebookUri?, startReason)`. -/
structure StartArgs where
  runtimeId : String
  sessionName : String
  sessionMode : SessionMode
  notebookUri : Option String
  startReason : String
  deriving DecidableEq, Repr

/-- Modelled from the spec: resolve `RuntimeMetadata` by runtime id in the
Runtime Metadata Registry. -/
def findRuntime (registry : List RuntimeMetadata) (runtimeId : String) :
    Option RuntimeMetadata :=
  registry.find? (fun r => decide (r.runtimeId = runtimeId))

/-- Modelled from the spec: the target key computed for a start request —
language id for a console start, notebook URI for a notebook start. -/
def computeTargetKey (rt : RuntimeMetadata) (args : StartArgs) : TargetKey :=
  match args.sessionMode with
  | .console => .console rt.languageId
  | .notebook => .notebook (args.notebookUri.getD "")

/-- Modelled from the spec: the session object created for a start request —
metadata generated at start time, the resolved runtime metadata, and the
state the session reports when the start promise resolves. The tests assert
this state is `Starting` (`testStartSessionDetails`): the session
self-transitions to `Ready` only afterwards, observed separately via
`waitForRuntimeState`. -/
def newSessionFor (rt : RuntimeMetadata) (args : StartArgs) (sid : Nat) :
    Session :=
  { metadata :=
      { sessionId := sid, sessionMode := args.sessionMode,
        sessionName := args.sessionName, startReason := args.startReason,
        notebookUri := args.notebookUri },
    runtimeMetadata := rt, state := .starting }

/-- Result of one `startNewRuntimeSession` operation: the settled promise,
the service state after the operation, the emitted events, and the external
primitive invocations, in order. -/
structure StartResult where
  result : Except SessionError Nat
  state : ServiceState
  events : List Event
  prims : List Prim
  deriving Repr

/-- Modelled from the spec: one queue-admitted `startNewRuntimeSession`
operation. Steps: resolve the runtime (else `UnknownRuntime`); require a
notebook URI for notebook mode (else `MissingNotebookUri`); if an
active-or-starting entry exists at the target key, reuse it when it belongs
to the same runtime and fail with `ConflictingRuntime` otherwise; else create
the session, register it under `Uninitialized` (emitting `onWillStartSession`
with `isNew` true), emit `onWillStartSession` again on the
`Uninitialized → Starting` transition, and invoke `session.start()`. On
success the session is `Starting` when the promise resolves,
`onDidStartRuntime` fires, and a console start with no foreground session
for the language assigns the foreground session — without firing
`onDidChangeForegroundSession`: the tests document that the assignment goes
through the private field, bypassing the event-firing setter
(`start console sets foregroundSession` asserts the handler is not called).
On failure the session is removed from the Directory and the provider's
error propagates without retry. `startOutcome` is the external session's
behavior: `none` means `start()` succeeds, `some msg` means it fails with
`msg`. -/
def startNewRuntimeSession (registry : List RuntimeMetadata) (args : StartArgs)
    (startOutcome : Option String) (st : ServiceState) : StartResult :=
  match findRuntime registry args.runtimeId with
  | none => ⟨.error (.unknownRuntime args.runtimeId), st, [], []⟩
  | some rt =>
    if args.sessionMode = .notebook ∧ args.notebookUri = none then
      ⟨.error .missingNotebookUri, st, [], []⟩
    else
      match findActiveAtKey st (computeTargetKey rt args) with
      | some existing =>
        if existing.runtimeMetadata.runtimeId = args.runtimeId then
          ⟨.ok existing.metadata.sessionId, st, [], []⟩
        else
          ⟨.error (.conflictingRuntime rt.runtimeName
              existing.runtimeMetadata.runtimeName existing.metadata.startReason),
            st, [], []⟩
      | none =>
        let sid := st.nextSessionId
        match startOutcome with
        | some errMsg =>
          ⟨.error (.providerFailure errMsg),
            { st with nextSessionId := sid + 1 },
            [.willStartSession sid true, .willStartSession sid true,
              .didFailStartRuntime sid],
            [.createSession args.runtimeId, .sessionStart sid]⟩
        | none =>
          let sess : Session := newSessionFor rt args sid
          let st1 : ServiceState :=
            { st with
                activeSessions := st.activeSessions ++ [sess]
                nextSessionId := sid + 1 }
          let st2 : ServiceState :=
            if args.sessionMode = .console ∧
                foregroundSetForLanguage st rt.languageId = false then
              { st1 with foregroundSession := some sid }
            else st1
          ⟨.ok sid, st2,
            [.willStartSession sid true, .willStartSession sid true,
              .didStartRuntime sid],
            [.createSession args.runtimeId, .sessionStart sid]⟩

/-- Modelled from the spec: the default timeout for the
shutdown-confirmation wait, in milliseconds. -/
def SHUTDOWN_TIMEOUT_MS : Nat := 5000

/-- Modelled from the spec: the default timeout for the
restart-ready-confirmation wait, in milliseconds. -/
def RESTART_TIMEOUT_MS : Nat := 5000

/-- Replace the state of the session with the given id in the Directory. -/
def ServiceState.setSessionState (st : ServiceState) (sessionId : Nat)
    (newState : RuntimeState) : ServiceState :=
  { st with
      activeSessions := st.activeSessions.map
        (fun s => if s.metadata.sessionId = sessionId
          then { s with state := newState } else s) }

/-- Remove the session with the given id from the Directory. -/
def ServiceState.removeSession (st : ServiceState) (sessionId : Nat) :
    ServiceState :=
  { st with
      activeSessions := st.activeSessions.filter
        (fun s => decide (s.metadata.sessionId ≠ sessionId)) }

/-- Result of one `restartSession` operation: the settled promise, the state
after, the external primitive invocations, and how many milliseconds the
operation waited before settling. -/
structure RestartResult where
  result : Except SessionError Unit
  state : ServiceState
  prims : List Prim
  elapsedMs : Nat
  deriving Repr

/-- Modelled from the spec: one queue-admitted `restartSession(sessionId,
reason)` operation. Fails with `UnknownSession` if the id is not in the
Directory; an `Exited` session is started afresh (a new underlying session
preserving the target-key slot); otherwise the provider's restart primitive
is invoked and the core awaits the ready transition, bounded by
`RESTART_TIMEOUT_MS` — on timeout it fails with `RestartTimeout` and removes
the stale entry from the Directory. `readyAfterMs` is the external session's
behavior: `some t` means it reports ready `t` ms after the restart primitive
is invoked, `none` means the confirming event never fires. -/
def restartSession (sessionId : Nat) (readyAfterMs : Option Nat)
    (st : ServiceState) : RestartResult :=
  match getSession st sessionId with
  | none => ⟨.error (.unknownSession sessionId), st, [], 0⟩
  | some s =>
    if s.state = .exited then
      let newSid := st.nextSessionId
      let newSess : Session :=
        { metadata := { s.metadata with sessionId := newSid },
          runtimeMetadata := s.runtimeMetadata, state := .ready }
      ⟨.ok (),
        { st with
            activeSessions :=
              (st.removeSession sessionId).activeSessions ++ [newSess]
            nextSessionId := newSid + 1 },
        [.createSession s.runtimeMetadata.runtimeId, .sessionStart newSid], 0⟩
    else
      match readyAfterMs with
      | some t =>
        if t < RESTART_TIMEOUT_MS then
          ⟨.ok (), st.setSessionState sessionId .ready,
            [.sessionRestart sessionId], t⟩
        else
          ⟨.error .restartTimeout, st.removeSession sessionId,
            [.sessionRestart sessionId], RESTART_TIMEOUT_MS⟩
      | none =>
        ⟨.error .restartTimeout, st.removeSession sessionId,
          [.sessionRestart sessionId], RESTART_TIMEOUT_MS⟩

/-- Result of a coalesced batch of restart requests: one settled promise per
caller, the state after, and the external primitive invocations. -/
structure RestartBatchResult where
  results : List (Except SessionError Unit)
  state : ServiceState
  prims : List Prim
  deriving Repr

/-- Modelled from the spec: `n` concurrent `restartSession` requests for the
same session id are coalesced onto the same in-flight operation via the
Request Queue — the underlying restart primitive is invoked at most once per
queued batch, and every caller's promise settles with that operation's
result. -/
def restartSessionBatch (n : Nat) (sessionId : Nat) (readyAfterMs : Option Nat)
    (st : ServiceState) : RestartBatchResult :=
  if n = 0 then ⟨[], st, []⟩
  else
    let r := restartSession sessionId readyAfterMs st
    ⟨List.replicate n r.result, r.state, r.prims⟩

/-- Result of one shutdown operation: the settled promise, the state after,
the emitted events, the external primitive invocations, and how many
milliseconds the operation waited before settling. -/
structure ShutdownResult where
  result : Except SessionError Unit
  state : ServiceState
  events : List Event
  prims : List Prim
  elapsedMs : Nat
  deriving Repr

/-- Modelled from the spec: one queue-admitted
`shutdownNotebookSession(notebookUri, exitReason)` operation. No-op success
if no active-or-starting session exists for the target (desired-state
idempotence). Otherwise the session's shutdown primitive is invoked and the
core awaits the end-of-session event, bounded by `SHUTDOWN_TIMEOUT_MS` — on
timeout it fails with `ShutdownTimeout`, leaving the Directory entry in
place (conservative policy). On confirmed exit the session leaves the
target-key indices (state `Exited`), and if it was the foreground session
the foreground is cleared and the change event fires. `confirmAfterMs` is
the external session's behavior: `some t` means the end-of-session event
fires `t` ms after the shutdown primitive is invoked, `none` means it never
fires. -/
def shutdownNotebookSession (uri : String) (confirmAfterMs : Option Nat)
    (st : ServiceState) : ShutdownResult :=
  match findActiveAtKey st (.notebook uri) with
  | none => ⟨.ok (), st, [], [], 0⟩
  | some s =>
    let sid := s.metadata.sessionId
    match confirmAfterMs with
    | some t =>
      if t < SHUTDOWN_TIMEOUT_MS then
        let st1 := st.setSessionState sid .exited
        if st1.foregroundSession = some sid then
          ⟨.ok (), { st1 with foregroundSession := none },
            [.didChangeForegroundSession none], [.sessionShutdown sid], t⟩
        else
          ⟨.ok (), st1, [], [.sessionShutdown sid], t⟩
      else
        ⟨.error .shutdownTimeout, st, [], [.sessionShutdown sid],
          SHUTDOWN_TIMEOUT_MS⟩
    | none =>
      ⟨.error .shutdownTimeout, st, [], [.sessionShutdown sid],
        SHUTDOWN_TIMEOUT_MS⟩

/-- A lifecycle operation as submitted to the per-target-key Session Request
Queue, together with the external collaborator's behavior for it. -/
inductive Op where
  | start (args : StartArgs) (startOutcome : Option String)
  | restart (sessionId : Nat) (readyAfterMs : Option Nat)
  | shutdownNotebook (uri : String) (confirmAfterMs : Option Nat)
  deriving Repr

/-- The outcome of one queue-admitted operation: the state after, the settled
promise (a session id for a start, nothing for a restart or shutdown), and
the external primitive invocations. -/
structure OpResult where
  state : ServiceState
  result : Except SessionError (Option Nat)
  prims : List Prim
  deriving Repr

/-- Run one queue-admitted operation. -/
def applyOp (registry : List RuntimeMetadata) (st : ServiceState) :
    Op → OpResult
  | .start args startOutcome =>
    let r := startNewRuntimeSession registry args startOutcome st
    ⟨r.state, r.result.map some, r.prims⟩
  | .restart sessionId readyAfterMs =>
    let r := restartSession sessionId readyAfterMs st
    ⟨r.state, r.result.map (fun _ => none), r.prims⟩
  | .shutdownNotebook uri confirmAfterMs =>
    let r := shutdownNotebookSession uri confirmAfterMs st
    ⟨r.state, r.result.map (fun _ => none), r.prims⟩

/-- Result of draining a queue of operations for one target key: every
submitted operation's settled promise, in submission order, the final state,
and the concatenated external primitive invocations. -/
structure QueueResult where
  results : List (Except SessionError (Option Nat))
  state : ServiceState
  prims : List Prim
  deriving Repr

/-- The Session Request Queue's semantics for a single target key, as the
repository's passing test suites document it: operations execute strictly in
submission order, each awaiting the promise of the operation before it
(`prev` is that promise's settled result). When the awaited operation has
failed, the queued operation rejects with that same error without running —
the behavior the tests `start while shutting down and shutting down errors`
and `start while restarting and restarting errors` assert (with a TODO and
issue 4224 marking it as likely unintended); spec section 4.1 instead claims
failure isolation. -/
def runQueueFrom (registry : List RuntimeMetadata)
    (prev : Except SessionError (Option Nat)) (st : ServiceState) :
    List Op → QueueResult
  | [] => ⟨[], st, []⟩
  | op :: ops =>
    match prev with
    | .error e =>
      let rest := runQueueFrom registry (.error e) st ops
      ⟨.error e :: rest.results, rest.state, rest.prims⟩
    | .ok _ =>
      let r := applyOp registry st op
      let rest := runQueueFrom registry r.result r.state ops
      ⟨r.result :: rest.results, rest.state, r.prims ++ rest.prims⟩

/-- Drain a queue of operations for one target key, starting from a settled
(successful) predecessor. -/
def runQueue (registry : List RuntimeMetadata) (st : ServiceState)
    (ops : List Op) : QueueResult :=
  runQueueFrom registry (.ok none) st ops

/-! Concrete fixtures mirroring the test suites: two runtimes for the same
`test` language, console start arguments for each, and notebook start
arguments for a fixed notebook URI. -/

/-- A test runtime for the `test` language. -/
def testRuntime : RuntimeMetadata :=
  { runtimeId := "r1", languageId := "test", languageName := "Test",
    runtimeName := "Test 0.0.1" }

/-- A second test runtime for the same `test` language. -/
def otherRuntime : RuntimeMetadata :=
  { runtimeId := "r2", languageId := "test", languageName := "Test",
    runtimeName := "Other 0.0.1" }

/-- A registry holding both test runtimes. -/
def testRegistry : List RuntimeMetadata := [testRuntime, otherRuntime]

/-- Console start arguments for `testRuntime`. -/
def consoleArgs : StartArgs :=
  { runtimeId := "r1", sessionName := "Test session", sessionMode := .console,
    notebookUri := none, startReason := "Test requested a session" }

/-- Console start arguments for `otherRuntime` (same language as
`testRuntime`, hence the same console target key). -/
def otherConsoleArgs : StartArgs :=
  { runtimeId := "r2", sessionName := "Other session", sessionMode := .console,
    notebookUri := none, startReason := "Second request" }

/-- Notebook start arguments for `testRuntime` against a fixed notebook URI. -/
def notebookArgs : StartArgs :=
  { runtimeId := "r1", sessionName := "Test session", sessionMode := .notebook,
    notebookUri := some "file:///nb.ipynb", startReason := "Test requested a session" }

/-- The service state after one successful console start of `testRuntime`
from the initial state. -/
def startedConsoleState : ServiceState :=
  (startNewRuntimeSession testRegistry consoleArgs none ServiceState.initial).state

/-- The console session registered in `startedConsoleState`. -/
def startedConsoleSession : Session := newSessionFor testRuntime consoleArgs 0

/-- `startedConsoleState` after the external session has self-reported
`Ready` (the transition the tests observe with `waitForRuntimeState` before
restarting). -/
def readyConsoleState : ServiceState :=
  startedConsoleState.setSessionState 0 .ready

/-- The console session of `readyConsoleState`. -/
def readyConsoleSession : Session :=
  { startedConsoleSession with state := .ready }

/-- The service state after one successful notebook start of `testRuntime`
from the initial state. -/
def startedNotebookState : ServiceState :=
  (startNewRuntimeSession testRegistry notebookArgs none ServiceState.initial).state

/-- The notebook session registered in `startedNotebookState`. -/
def startedNotebookSession : Session := newSessionFor testRuntime notebookArgs 0

/-! ## Helper lemmas -/

/-- List helper: a search that fails on the prefix continues on the suffix. -/
theorem find?_append_of_none {α : Type} {p : α → Bool} {l₁ l₂ : List α}
    (h : l₁.find? p = none) : (l₁ ++ l₂).find? p = l₂.find? p := by
  rw [List.find?_append, h, Option.none_or]

/-- List helper: mapping a function that fixes every element is the identity. -/
theorem map_self_of {α : Type} {f : α → α} {l : List α}
    (h : ∀ x ∈ l, f x = x) : l.map f = l := by
  induction l with
  | nil => rfl
  | cons a t ih =>
    simp only [List.map_cons, h a (by simp), ih (fun x hx => h x (by simp [hx]))]

/-- The runtime that `findRuntime` resolves carries the requested runtime id. -/
theorem findRuntime_id (registry : List RuntimeMetadata) (runtimeId : String)
    (rt : RuntimeMetadata) (h : findRuntime registry runtimeId = some rt) :
    rt.runtimeId = runtimeId := by
  have := List.find?_some h
  exact of_decide_eq_true this

/-- The session created for a start request occupies the computed target key. -/
theorem targetKey_newSessionFor (rt : RuntimeMetadata) (args : StartArgs)
    (sid : Nat) :
    (newSessionFor rt args sid).targetKey = computeTargetKey rt args := by
  cases h : args.sessionMode with
  | console => simp [newSessionFor, Session.targetKey, computeTargetKey, h]
  | notebook => simp [newSessionFor, Session.targetKey, computeTargetKey, h]

/-- `startNewRuntimeSession` when an active entry for the same runtime holds
the target key: idempotent reuse. -/
theorem start_reuse (registry : List RuntimeMetadata) (args : StartArgs)
    (rt : RuntimeMetadata) (st : ServiceState) (s : Session)
    (startOutcome : Option String)
    (hrt : findRuntime registry args.runtimeId = some rt)
    (hnb : ¬(args.sessionMode = .notebook ∧ args.notebookUri = none))
    (hfind : findActiveAtKey st (computeTargetKey rt args) = some s)
    (hsame : s.runtimeMetadata.runtimeId = args.runtimeId) :
    startNewRuntimeSession registry args startOutcome st =
      ⟨.ok s.metadata.sessionId, st, [], []⟩ := by
  unfold startNewRuntimeSession
  rw [hrt]
  simp only [if_neg hnb, hfind, if_pos hsame]

/-- `startNewRuntimeSession` at a free target key when the external session's
`start()` fails: the partially registered session is removed again and the
provider's error propagates. -/
theorem start_fail (registry : List RuntimeMetadata) (args : StartArgs)
    (rt : RuntimeMetadata) (st : ServiceState) (errMsg : String)
    (hrt : findRuntime registry args.runtimeId = some rt)
    (hnb : ¬(args.sessionMode = .notebook ∧ args.notebookUri = none))
    (hfree : findActiveAtKey st (computeTargetKey rt args) = none) :
    startNewRuntimeSession registry args (some errMsg) st =
      ⟨.error (.providerFailure errMsg),
        { st with nextSessionId := st.nextSessionId + 1 },
        [.willStartSession st.nextSessionId true,
          .willStartSession st.nextSessionId true,
          .didFailStartRuntime st.nextSessionId],
        [.createSession args.runtimeId, .sessionStart st.nextSessionId]⟩ := by
  unfold startNewRuntimeSession
  rw [hrt]
  simp only [if_neg hnb, hfree]

/-- `startNewRuntimeSession` at a free target key when the external session's
`start()` succeeds, characterized up to the foreground decision. -/
theorem start_success (registry : List RuntimeMetadata) (args : StartArgs)
    (rt : RuntimeMetadata) (st : ServiceState)
    (hrt : findRuntime registry args.runtimeId = some rt)
    (hnb : ¬(args.sessionMode = .notebook ∧ args.notebookUri = none))
    (hfree : findActiveAtKey st (computeTargetKey rt args) = none) :
    startNewRuntimeSession registry args none st =
      ⟨.ok st.nextSessionId,
        (if args.sessionMode = .console ∧
            foregroundSetForLanguage st rt.languageId = false then
          { activeSessions :=
              st.activeSessions ++ [newSessionFor rt args st.nextSessionId],
            foregroundSession := some st.nextSessionId,
            nextSessionId := st.nextSessionId + 1 }
        else
          { st with
              activeSessions :=
                st.activeSessions ++ [newSessionFor rt args st.nextSessionId]
              nextSessionId := st.nextSessionId + 1 }),
        [.willStartSession st.nextSessionId true,
          .willStartSession st.nextSessionId true,
          .didStartRuntime st.nextSessionId],
        [.createSession args.runtimeId, .sessionStart st.nextSessionId]⟩ := by
  unfold startNewRuntimeSession
  rw [hrt]
  simp only [if_neg hnb, hfree]

/-- After a successful start at a free key, the new session is the
active-or-starting entry at that key. -/
theorem findActiveAtKey_after_success (rt : RuntimeMetadata) (args : StartArgs)
    (st st2 : ServiceState)
    (hfree : findActiveAtKey st (computeTargetKey rt args) = none)
    (hact : st2.activeSessions =
      st.activeSessions ++ [newSessionFor rt args st.nextSessionId]) :
    findActiveAtKey st2 (computeTargetKey rt args) =
      some (newSessionFor rt args st.nextSessionId) := by
  unfold findActiveAtKey at hfree ⊢
  rw [hact, find?_append_of_none hfree]
  exact List.find?_cons_of_pos _ (by
    rw [decide_eq_true_eq]
    exact ⟨targetKey_newSessionFor rt args st.nextSessionId, rfl⟩)

/-- Field-level characterization of a successful start at a free key,
independent of the foreground decision. -/
theorem start_success_fields (registry : List RuntimeMetadata)
    (args : StartArgs) (rt : RuntimeMetadata) (st : ServiceState)
    (hrt : findRuntime registry args.runtimeId = some rt)
    (hnb : ¬(args.sessionMode = .notebook ∧ args.notebookUri = none))
    (hfree : findActiveAtKey st (computeTargetKey rt args) = none) :
    (startNewRuntimeSession registry args none st).result =
      .ok st.nextSessionId ∧
    (startNewRuntimeSession registry args none st).state.activeSessions =
      st.activeSessions ++ [newSessionFor rt args st.nextSessionId] ∧
    (startNewRuntimeSession registry args none st).prims =
      [.createSession args.runtimeId, .sessionStart st.nextSessionId] := by
  rw [start_success registry args rt st hrt hnb hfree]
  refine ⟨rfl, ?_, rfl⟩
  by_cases hc : args.sessionMode = .console ∧
      foregroundSetForLanguage st rt.languageId = false
  · rw [if_pos hc]
  · rw [if_neg hc]

/-- Once an active same-runtime entry holds the key, any number of further
queued starts reuse it: no primitive invocations, no state change, and every
caller receives the existing session id. -/
theorem runQueueFrom_replicate_reuse (registry : List RuntimeMetadata)
    (args : StartArgs) (rt : RuntimeMetadata) (st : ServiceState) (s : Session)
    (m : Nat) (x : Option Nat)
    (hrt : findRuntime registry args.runtimeId = some rt)
    (hnb : ¬(args.sessionMode = .notebook ∧ args.notebookUri = none))
    (hfind : findActiveAtKey st (computeTargetKey rt args) = some s)
    (hsame : s.runtimeMetadata.runtimeId = args.runtimeId) :
    runQueueFrom registry (.ok x) st (List.replicate m (.start args none)) =
      ⟨List.replicate m (.ok (some s.metadata.sessionId)), st, []⟩ := by
  have happ : applyOp registry st (.start args none) =
      ⟨st, .ok (some s.metadata.sessionId), []⟩ := by
    show (let r := startNewRuntimeSession registry args none st
          (⟨r.state, r.result.map some, r.prims⟩ : OpResult)) = _
    rw [start_reuse registry args rt st s none hrt hnb hfind hsame]
    rfl
  induction m generalizing x with
  | zero => rfl
  | succ k ih =>
    rw [List.replicate_succ]
    simp only [runQueueFrom]
    rw [happ]
    simp only [ih]
    simp [List.replicate_succ]

/-! ## Claim theorems -/

/-- C1: for every target key (language id for console sessions, notebook URI
for notebook sessions), a queued sequence of `startNewRuntimeSession` calls
with the same target key and the same runtime id — which is how concurrent
and successive calls execute under the per-key Request Queue — creates
exactly one underlying session (one create and one start primitive
invocation in total) and every caller receives the same session id. -/
theorem startSameRuntimeCreatesOneSession (registry : List RuntimeMetadata)
    (args : StartArgs) (rt : RuntimeMetadata) (st : ServiceState) (n : Nat)
    (hrt : findRuntime registry args.runtimeId = some rt)
    (hnb : ¬(args.sessionMode = .notebook ∧ args.notebookUri = none))
    (hfree : findActiveAtKey st (computeTargetKey rt args) = none)
    (hn : 1 ≤ n) :
    (runQueue registry st (List.replicate n (.start args none))).prims =
      [.createSession args.runtimeId, .sessionStart st.nextSessionId] ∧
    (runQueue registry st (List.replicate n (.start args none))).results =
      List.replicate n (.ok (some st.nextSessionId)) := by
  obtain ⟨k, rfl⟩ : ∃ k, n = k + 1 :=
    ⟨n - 1, (Nat.succ_pred_eq_of_pos hn).symm⟩
  obtain ⟨hres, hact, hprims⟩ :=
    start_success_fields registry args rt st hrt hnb hfree
  have hfind2 : findActiveAtKey
      (startNewRuntimeSession registry args none st).state
      (computeTargetKey rt args) =
      some (newSessionFor rt args st.nextSessionId) :=
    findActiveAtKey_after_success rt args st _ hfree hact
  have hsame : (newSessionFor rt args st.nextSessionId).runtimeMetadata.runtimeId =
      args.runtimeId := findRuntime_id registry args.runtimeId rt hrt
  have happ : applyOp registry st (.start args none) =
      ⟨(startNewRuntimeSession registry args none st).state,
        .ok (some st.nextSessionId),
        (startNewRuntimeSession registry args none st).prims⟩ := by
    show (⟨(startNewRuntimeSession registry args none st).state,
          (startNewRuntimeSession registry args none st).result.map some,
          (startNewRuntimeSession registry args none st).prims⟩ : OpResult) = _
    rw [hres]
    rfl
  have hq : runQueue registry st (List.replicate (k + 1) (.start args none)) =
      ⟨.ok (some st.nextSessionId) ::
          List.replicate k (.ok (some st.nextSessionId)),
        (startNewRuntimeSession registry args none st).state,
        (startNewRuntimeSession registry args none st).prims ++ []⟩ := by
    rw [List.replicate_succ]
    simp only [runQueue, runQueueFrom]
    rw [happ]
    have hrest := runQueueFrom_replicate_reuse registry args rt
      (startNewRuntimeSession registry args none st).state
      (newSessionFor rt args st.nextSessionId) k (some st.nextSessionId)
      hrt hnb hfind2 hsame
    simp only [hrest]
    rfl
  constructor
  · rw [hq]
    show (startNewRuntimeSession registry args none st).prims ++ [] = _
    rw [List.append_nil, hprims]
  · rw [hq, List.replicate_succ]

/-- Witness for C1 at a concrete input: three queued console starts of the
same runtime from the initial state invoke create and start once and all
return session id 0. -/
theorem startSameRuntimeCreatesOneSession_witness :
    (runQueue testRegistry ServiceState.initial
        (List.replicate 3 (.start consoleArgs none))).prims =
      [.createSession "r1", .sessionStart 0] ∧
    (runQueue testRegistry ServiceState.initial
        (List.replicate 3 (.start consoleArgs none))).results =
      List.replicate 3 (.ok (some 0)) :=
  startSameRuntimeCreatesOneSession testRegistry consoleArgs testRuntime
    ServiceState.initial 3 (by decide) (by decide) (by decide) (by decide)

/-- C2: calling `startNewRuntimeSession` for runtime B while a session for a
different runtime A is starting or running at the same target key rejects
with a `ConflictingRuntime` error carrying both runtime names (and the
conflicting start reason), creates no new session (no primitive is invoked),
and leaves the whole service state — in particular the existing session —
unaltered. -/
theorem conflictingRuntimeStartRejects (registry : List RuntimeMetadata)
    (args : StartArgs) (rt : RuntimeMetadata) (st : ServiceState) (s : Session)
    (startOutcome : Option String)
    (hrt : findRuntime registry args.runtimeId = some rt)
    (hnb : ¬(args.sessionMode = .notebook ∧ args.notebookUri = none))
    (hfind : findActiveAtKey st (computeTargetKey rt args) = some s)
    (hdiff : ¬s.runtimeMetadata.runtimeId = args.runtimeId) :
    (startNewRuntimeSession registry args startOutcome st).result =
      .error (.conflictingRuntime rt.runtimeName
        s.runtimeMetadata.runtimeName s.metadata.startReason) ∧
    (startNewRuntimeSession registry args startOutcome st).state = st ∧
    (startNewRuntimeSession registry args startOutcome st).prims = [] := by
  have h : startNewRuntimeSession registry args startOutcome st =
      ⟨.error (.conflictingRuntime rt.runtimeName
        s.runtimeMetadata.runtimeName s.metadata.startReason), st, [], []⟩ := by
    unfold startNewRuntimeSession
    rw [hrt]
    simp only [if_neg hnb, hfind, if_neg hdiff]
  rw [h]
  exact ⟨rfl, rfl, rfl⟩

/-- Witness for C2 at a concrete input: starting the other test runtime while
the first one's console session is running for the `test` language. -/
theorem conflictingRuntimeStartRejects_witness :
    (startNewRuntimeSession testRegistry otherConsoleArgs none
        startedConsoleState).result =
      .error (.conflictingRuntime "Other 0.0.1" "Test 0.0.1"
        "Test requested a session") ∧
    (startNewRuntimeSession testRegistry otherConsoleArgs none
        startedConsoleState).state = startedConsoleState ∧
    (startNewRuntimeSession testRegistry otherConsoleArgs none
        startedConsoleState).prims = [] :=
  conflictingRuntimeStartRejects testRegistry otherConsoleArgs otherRuntime
    startedConsoleState startedConsoleSession none (by decide) (by decide)
    (by decide) (by decide)

/-- C3: the first, ordering half of the claim holds of the queue — queued
operations run strictly in submission order, each after the previous one
settles — but the failure-isolation half is a code bug tracked in the
repository: as the tests `start while shutting down and shutting down
errors` document (with a TODO and issue 4224), an operation queued behind a
failing operation is rejected with the failing operation's error instead of
running. This theorem evaluates the modelled code at the failing input: a
shutdown of the running notebook session whose confirmation never arrives,
with a start of the same runtime for the same notebook URI queued behind
it. The shutdown rejects with its timeout error, and the queued start
rejects with that same error, invoking none of its primitives. -/
theorem queuedStartRejectsAfterFailedShutdown :
    (runQueue testRegistry startedNotebookState
        [.shutdownNotebook "file:///nb.ipynb" none,
          .start notebookArgs none]).results =
      [.error .shutdownTimeout, .error .shutdownTimeout] ∧
    (runQueue testRegistry startedNotebookState
        [.shutdownNotebook "file:///nb.ipynb" none,
          .start notebookArgs none]).prims = [.sessionShutdown 0] :=
  ⟨rfl, rfl⟩

/-- C4: a successful start emits `onWillStartSession` twice — once at
registration and once on the `Uninitialized → Starting` transition — each
time with `isNew` true and the started session's id, then exactly one
`onDidStartRuntime` with that same session, and nothing after it is another
will-start or did-start emission. -/
theorem startSessionEventOrder (registry : List RuntimeMetadata)
    (args : StartArgs) (rt : RuntimeMetadata) (st : ServiceState)
    (hrt : findRuntime registry args.runtimeId = some rt)
    (hnb : ¬(args.sessionMode = .notebook ∧ args.notebookUri = none))
    (hfree : findActiveAtKey st (computeTargetKey rt args) = none) :
    (startNewRuntimeSession registry args none st).result =
      .ok st.nextSessionId ∧
    ∃ rest,
      (startNewRuntimeSession registry args none st).events =
        .willStartSession st.nextSessionId true ::
          .willStartSession st.nextSessionId true ::
            .didStartRuntime st.nextSessionId :: rest ∧
      ∀ e ∈ rest, e.isWillStart = false ∧ e.isDidStart = false := by
  rw [start_success registry args rt st hrt hnb hfree]
  refine ⟨rfl, [], rfl, ?_⟩
  intro e he
  cases he

/-- Witness for C4 at a concrete input: a console start from the initial
state. -/
theorem startSessionEventOrder_witness :
    (startNewRuntimeSession testRegistry consoleArgs none
        ServiceState.initial).result = .ok 0 ∧
    ∃ rest,
      (startNewRuntimeSession testRegistry consoleArgs none
          ServiceState.initial).events =
        .willStartSession 0 true :: .willStartSession 0 true ::
          .didStartRuntime 0 :: rest ∧
      ∀ e ∈ rest, e.isWillStart = false ∧ e.isDidStart = false :=
  startSessionEventOrder testRegistry consoleArgs testRuntime
    ServiceState.initial (by decide) (by decide) (by decide)

/-- C5: if `session.start()` fails during `startNewRuntimeSession`, the
partially-registered session is removed from the Session Directory — the
directory's contents are as before the call and the target key is free for a
fresh attempt — and the provider's error propagates to the caller with no
retry (exactly one create and one start invocation). -/
theorem failedStartRemovesSessionAndPropagates (registry : List RuntimeMetadata)
    (args : StartArgs) (rt : RuntimeMetadata) (st : ServiceState)
    (errMsg : String)
    (hrt : findRuntime registry args.runtimeId = some rt)
    (hnb : ¬(args.sessionMode = .notebook ∧ args.notebookUri = none))
    (hfree : findActiveAtKey st (computeTargetKey rt args) = none) :
    (startNewRuntimeSession registry args (some errMsg) st).result =
      .error (.providerFailure errMsg) ∧
    (startNewRuntimeSession registry args (some errMsg) st).state.activeSessions =
      st.activeSessions ∧
    findActiveAtKey (startNewRuntimeSession registry args (some errMsg) st).state
      (computeTargetKey rt args) = none ∧
    (startNewRuntimeSession registry args (some errMsg) st).prims =
      [.createSession args.runtimeId, .sessionStart st.nextSessionId] := by
  rw [start_fail registry args rt st errMsg hrt hnb hfree]
  refine ⟨rfl, rfl, ?_, rfl⟩
  unfold findActiveAtKey at hfree ⊢
  exact hfree

/-- Witness for C5 at a concrete input: a console start from the initial
state whose `session.start()` fails. -/
theorem failedStartRemovesSessionAndPropagates_witness :
    (startNewRuntimeSession testRegistry consoleArgs (some "boom")
        ServiceState.initial).result =
      .error (.providerFailure "boom") ∧
    (startNewRuntimeSession testRegistry consoleArgs (some "boom")
        ServiceState.initial).state.activeSessions = [] ∧
    findActiveAtKey (startNewRuntimeSession testRegistry consoleArgs
        (some "boom") ServiceState.initial).state
      (computeTargetKey testRuntime consoleArgs) = none ∧
    (startNewRuntimeSession testRegistry consoleArgs (some "boom")
        ServiceState.initial).prims =
      [.createSession "r1", .sessionStart 0] :=
  failedStartRemovesSessionAndPropagates testRegistry consoleArgs testRuntime
    ServiceState.initial "boom" (by decide) (by decide) (by decide)

/-- C6 counterexample: at a concrete console start from the initial state,
the claim as stated is false — the session id is returned and
`getConsoleSessionForLanguage` is the started session, but that session's
state is not `Ready` when the promise resolves (the cited test
`testStartSessionDetails` asserts `Starting` at exactly this point). -/
theorem startConsoleReadyCounterexample :
    (startNewRuntimeSession testRegistry consoleArgs none
        ServiceState.initial).result = .ok 0 ∧
    getConsoleSessionForLanguage
        (startNewRuntimeSession testRegistry consoleArgs none
          ServiceState.initial).state "test" =
      some (newSessionFor testRuntime consoleArgs 0) ∧
    ¬(newSessionFor testRuntime consoleArgs 0).state = .ready :=
  ⟨rfl, by decide, by decide⟩

/-- C6 (amended): after a console `startNewRuntimeSession` resolves, the new
session's id is returned, `getConsoleSessionForLanguage` for the runtime's
language is exactly the started session, and that session's state is
`Starting` — it transitions to `Ready` only when the external session later
reports it. -/
theorem startConsoleResolvesToStartingSession (registry : List RuntimeMetadata)
    (args : StartArgs) (rt : RuntimeMetadata) (st : ServiceState)
    (hrt : findRuntime registry args.runtimeId = some rt)
    (hmode : args.sessionMode = .console)
    (hfree : findActiveAtKey st (computeTargetKey rt args) = none) :
    (startNewRuntimeSession registry args none st).result =
      .ok st.nextSessionId ∧
    getConsoleSessionForLanguage
        (startNewRuntimeSession registry args none st).state rt.languageId =
      some (newSessionFor rt args st.nextSessionId) ∧
    (newSessionFor rt args st.nextSessionId).metadata.sessionId =
      st.nextSessionId ∧
    (newSessionFor rt args st.nextSessionId).state = .starting := by
  have hnb : ¬(args.sessionMode = .notebook ∧ args.notebookUri = none) := by
    rw [hmode]
    rintro ⟨h, -⟩
    cases h
  obtain ⟨hres, hact, -⟩ := start_success_fields registry args rt st hrt hnb hfree
  have hkey : computeTargetKey rt args = .console rt.languageId := by
    unfold computeTargetKey
    rw [hmode]
  refine ⟨hres, ?_, rfl, rfl⟩
  have h := findActiveAtKey_after_success rt args st _ hfree hact
  rw [hkey] at h
  unfold getConsoleSessionForLanguage
  exact h

/-- Witness for the amended C6 at a concrete input: a console start from the
initial state. -/
theorem startConsoleResolvesToStartingSession_witness :
    (startNewRuntimeSession testRegistry consoleArgs none
        ServiceState.initial).result = .ok 0 ∧
    getConsoleSessionForLanguage
        (startNewRuntimeSession testRegistry consoleArgs none
          ServiceState.initial).state "test" =
      some (newSessionFor testRuntime consoleArgs 0) ∧
    (newSessionFor testRuntime consoleArgs 0).metadata.sessionId = 0 ∧
    (newSessionFor testRuntime consoleArgs 0).state = .starting :=
  startConsoleResolvesToStartingSession testRegistry consoleArgs testRuntime
    ServiceState.initial (by decide) (by decide) (by decide)

/-- C7: if the confirming event never fires, a shutdown rejects with
`ShutdownTimeout` and a restart with `RestartTimeout`, each after the
default 5000 ms wait, and in each case the underlying primitive is invoked
exactly once — the operation is not retried. -/
theorem timeoutIsTerminalWithoutRetry (st st2 : ServiceState) (uri : String)
    (s s2 : Session) (sid2 : Nat)
    (hs : findActiveAtKey st (.notebook uri) = some s)
    (hs2 : getSession st2 sid2 = some s2)
    (hne : ¬s2.state = .exited) :
    SHUTDOWN_TIMEOUT_MS = 5000 ∧ RESTART_TIMEOUT_MS = 5000 ∧
    (shutdownNotebookSession uri none st).result = .error .shutdownTimeout ∧
    (shutdownNotebookSession uri none st).elapsedMs = SHUTDOWN_TIMEOUT_MS ∧
    (shutdownNotebookSession uri none st).prims =
      [.sessionShutdown s.metadata.sessionId] ∧
    (restartSession sid2 none st2).result = .error .restartTimeout ∧
    (restartSession sid2 none st2).elapsedMs = RESTART_TIMEOUT_MS ∧
    (restartSession sid2 none st2).prims = [.sessionRestart sid2] := by
  have hshut : shutdownNotebookSession uri none st =
      ⟨.error .shutdownTimeout, st, [], [.sessionShutdown s.metadata.sessionId],
        SHUTDOWN_TIMEOUT_MS⟩ := by
    unfold shutdownNotebookSession
    rw [hs]
  have hrst : restartSession sid2 none st2 =
      ⟨.error .restartTimeout, st2.removeSession sid2, [.sessionRestart sid2],
        RESTART_TIMEOUT_MS⟩ := by
    unfold restartSession
    rw [hs2]
    simp only [if_neg hne]
  rw [hshut, hrst]
  exact ⟨rfl, rfl, rfl, rfl, rfl, rfl, rfl, rfl⟩

/-- Witness for C7 at concrete inputs: the started notebook session whose
end-of-session event never fires, and the started console session whose
ready event never fires after a restart. -/
theorem timeoutIsTerminalWithoutRetry_witness :
    SHUTDOWN_TIMEOUT_MS = 5000 ∧ RESTART_TIMEOUT_MS = 5000 ∧
    (shutdownNotebookSession "file:///nb.ipynb" none
        startedNotebookState).result = .error .shutdownTimeout ∧
    (shutdownNotebookSession "file:///nb.ipynb" none
        startedNotebookState).elapsedMs = SHUTDOWN_TIMEOUT_MS ∧
    (shutdownNotebookSession "file:///nb.ipynb" none
        startedNotebookState).prims = [.sessionShutdown 0] ∧
    (restartSession 0 none startedConsoleState).result =
      .error .restartTimeout ∧
    (restartSession 0 none startedConsoleState).elapsedMs =
      RESTART_TIMEOUT_MS ∧
    (restartSession 0 none startedConsoleState).prims = [.sessionRestart 0] :=
  timeoutIsTerminalWithoutRetry startedNotebookState startedConsoleState
    "file:///nb.ipynb" startedNotebookSession startedConsoleSession 0
    (by decide) (by decide) (by decide)

/-- C8: shutting down a notebook target with no active-or-starting session
succeeds as a no-op — the result is success, the service state is unchanged,
no event is emitted and no primitive is invoked. -/
theorem shutdownWithoutSessionIsNoop (st : ServiceState) (uri : String)
    (confirmAfterMs : Option Nat)
    (hfree : findActiveAtKey st (.notebook uri) = none) :
    shutdownNotebookSession uri confirmAfterMs st = ⟨.ok (), st, [], [], 0⟩ := by
  unfold shutdownNotebookSession
  rw [hfree]

/-- Witness for C8 at a concrete input: shutting down a notebook URI in the
initial state, where nothing is running. -/
theorem shutdownWithoutSessionIsNoop_witness :
    shutdownNotebookSession "file:///nb.ipynb" (some 0) ServiceState.initial =
      ⟨.ok (), ServiceState.initial, [], [], 0⟩ :=
  shutdownWithoutSessionIsNoop ServiceState.initial "file:///nb.ipynb"
    (some 0) (by decide)

/-- C9: a batch of concurrent `restartSession` requests for the same session
id is coalesced onto one in-flight operation — the underlying restart
primitive is invoked exactly once for the whole batch, every caller's
promise resolves, and the session remains the console session for its
language. -/
theorem restartBatchCoalesced (st : ServiceState) (sid : Nat) (lang : String)
    (t n : Nat) (s : Session)
    (hs : getSession st sid = some s)
    (hall : ∀ u ∈ st.activeSessions, u.metadata.sessionId = sid →
      u.state = .ready)
    (ht : t < RESTART_TIMEOUT_MS) (hn : 1 ≤ n)
    (hc : getConsoleSessionForLanguage st lang = some s) :
    (restartSessionBatch n sid (some t) st).prims = [.sessionRestart sid] ∧
    (restartSessionBatch n sid (some t) st).results =
      List.replicate n (.ok ()) ∧
    getConsoleSessionForLanguage (restartSessionBatch n sid (some t) st).state
      lang = some s := by
  have hs2 : st.activeSessions.find?
      (fun u => decide (u.metadata.sessionId = sid)) = some s := hs
  have hmem : s ∈ st.activeSessions := List.mem_of_find?_eq_some hs2
  have hp := List.find?_some hs2
  have hsid : s.metadata.sessionId = sid := by
    simp only [decide_eq_true_eq] at hp
    exact hp
  have hready : s.state = .ready := hall s hmem hsid
  have hset : st.setSessionState sid .ready = st := by
    unfold ServiceState.setSessionState
    rw [map_self_of]
    intro x hx
    by_cases hid : x.metadata.sessionId = sid
    · rw [if_pos hid]
      have hxs : x.state = .ready := hall x hx hid
      cases x with
      | mk md rm stx =>
        simp only at hxs
        rw [hxs]
    · rw [if_neg hid]
  have hone : restartSession sid (some t) st =
      ⟨.ok (), st.setSessionState sid .ready, [.sessionRestart sid], t⟩ := by
    unfold restartSession
    rw [hs]
    have hne : ¬s.state = .exited := by
      rw [hready]
      intro h
      cases h
    simp only [if_neg hne, if_pos ht]
  have hbatch : restartSessionBatch n sid (some t) st =
      ⟨List.replicate n (.ok ()), st, [.sessionRestart sid]⟩ := by
    unfold restartSessionBatch
    rw [if_neg (by omega : ¬n = 0), hone]
    simp only [hset]
  rw [hbatch]
  exact ⟨rfl, rfl, hc⟩

/-- Witness for C9 at a concrete input: three coalesced restarts of the
console session once it has reached `Ready`. -/
theorem restartBatchCoalesced_witness :
    (restartSessionBatch 3 0 (some 0) readyConsoleState).prims =
      [.sessionRestart 0] ∧
    (restartSessionBatch 3 0 (some 0) readyConsoleState).results =
      List.replicate 3 (.ok ()) ∧
    getConsoleSessionForLanguage
        (restartSessionBatch 3 0 (some 0) readyConsoleState).state "test" =
      some readyConsoleSession :=
  restartBatchCoalesced readyConsoleState 0 "test" 0 3
    readyConsoleSession (by decide) (by decide) (by decide) (by decide)
    (by decide)

/-- C10 counterexample: at a concrete console start from the initial state —
where no foreground session is set for the language — the claim as stated is
false: the session does become the foreground session, but no
`onDidChangeForegroundSession` event is emitted (the cited test
`start console sets foregroundSession` asserts the handler is never
called). -/
theorem startConsoleForegroundEventCounterexample :
    (startNewRuntimeSession testRegistry consoleArgs none
        ServiceState.initial).state.foregroundSession = some 0 ∧
    Event.didChangeForegroundSession (some 0) ∉
      (startNewRuntimeSession testRegistry consoleArgs none
        ServiceState.initial).events :=
  ⟨rfl, by decide⟩

/-- C10 (amended): when a console session starts and no foreground session
is set for its language, the new session becomes the foreground session, but
`onDidChangeForegroundSession` does not fire — the foreground is assigned
through the private field rather than the event-firing setter, so the start
emits only the two will-start events and the did-start event. -/
theorem startConsoleSetsForegroundWithoutEvent (registry : List RuntimeMetadata)
    (args : StartArgs) (rt : RuntimeMetadata) (st : ServiceState)
    (hrt : findRuntime registry args.runtimeId = some rt)
    (hmode : args.sessionMode = .console)
    (hfree : findActiveAtKey st (computeTargetKey rt args) = none)
    (hfg : foregroundSetForLanguage st rt.languageId = false) :
    (startNewRuntimeSession registry args none st).state.foregroundSession =
      some st.nextSessionId ∧
    (startNewRuntimeSession registry args none st).events =
      [.willStartSession st.nextSessionId true,
        .willStartSession st.nextSessionId true,
        .didStartRuntime st.nextSessionId] := by
  have hnb : ¬(args.sessionMode = .notebook ∧ args.notebookUri = none) := by
    rw [hmode]
    rintro ⟨h, -⟩
    cases h
  rw [start_success registry args rt st hrt hnb hfree]
  refine ⟨?_, rfl⟩
  rw [if_pos ⟨hmode, hfg⟩]

/-- Witness for the amended C10 at a concrete input: a console start from
the initial state, where no foreground session exists. -/
theorem startConsoleSetsForegroundWithoutEvent_witness :
    (startNewRuntimeSession testRegistry consoleArgs none
        ServiceState.initial).state.foregroundSession = some 0 ∧
    (startNewRuntimeSession testRegistry consoleArgs none
        ServiceState.initial).events =
      [.willStartSession 0 true, .willStartSession 0 true,
        .didStartRuntime 0] :=
  startConsoleSetsForegroundWithoutEvent testRegistry consoleArgs testRuntime
    ServiceState.initial (by decide) (by decide) (by decide) (by decide)

end RuntimeSessionModel
